import Mathlib

/-
Verification development for the P2667 experimental vector / allocator-for-SBO
repository (src/P2667-VectorAllocatorForSBO).  The definitions below are a
shallow embedding of experimental_memory.h and experimental_vector.h:

  * `Policy` models the backing allocator kinds used in the repository:
    an ordinary heap allocator (std::allocator, which always succeeds) and the
    three sentinel non-allocating allocators of experimental_memory.h lines
    151-193 (throwing_allocator, terminating_allocator, unchecked_allocator).
  * `Alloc` models an allocator as seen by the container: either a plain
    backing allocator or a buffered_allocator<T, SZ, Backing>
    (experimental_memory.h lines 70-138).  Pointers are abstracted to `Nat`
    (0 plays the role of nullptr); the inline buffer of a buffered allocator
    instance is an abstract address `inlineAddr`.
  * `HeapVec` models vector_storage<T, 0> (the begin/end/capacity pointer
    representation used when can_allocate, experimental_vector.h lines 35-39):
    `m_begin` is the abstract begin pointer, `elems` the live element values
    (so m_end = m_begin + elems.length), `cap` the capacity
    (m_capacity = m_begin + cap).
  * `StaticVec` models vector_storage<T, SZ> (the single size integer used
    when !can_allocate, experimental_vector.h lines 29-31): `m_size` is the
    stored integer and `buf` the constructed element values living in the
    allocator's inline buffer.

Operations are translated line by line from experimental_vector.h; allocation
events, failures (raised / terminated), and element-operation counts are made
explicit so that the behavioural properties of the spec can be stated.
-/

namespace P2667

/-- The two observable allocation-failure behaviours of the sentinel
allocators: throwing_allocator throws bad_alloc, terminating_allocator calls
terminate().  (unchecked_allocator returns nullptr and never fails.) -/
inductive Failure where
  | raised
  | terminated
deriving DecidableEq, Repr

/-- Backing allocator kinds appearing in the repository: `heapOk` models
std::allocator (heap allocation that always succeeds); the other three model
the sentinel allocators of experimental_memory.h lines 151-193. -/
inductive Policy where
  | heapOk
  | raising
  | terminating
  | unchecked
deriving DecidableEq, Repr

/-- allocator_info::can_allocate (experimental_memory.h lines 45-50, 62):
defaults to true; the three sentinel allocators declare can_allocate = false. -/
def Policy.canAllocate : Policy → Bool
  | .heapOk => true
  | .raising => false
  | .terminating => false
  | .unchecked => false

/-- The backing allocator's `allocate(count)` member, returning the abstract
address of a new block.  std::allocator returns a fresh block (modelled by the
caller-supplied fresh address), throwing_allocator throws bad_alloc,
terminating_allocator terminates, unchecked_allocator returns nullptr
(experimental_memory.h lines 158, 173, 188). -/
def Policy.allocateRaw : Policy → Nat → Except Failure Nat
  | .heapOk, fresh => .ok fresh
  | .raising, _ => .error .raised
  | .terminating, _ => .error .terminated
  | .unchecked, _ => .ok 0

/-- std::allocate_at_least on an allocator with no allocate_at_least member
(experimental_memory.h lines 22-30, else branch): `{_Al.allocate(_Count), _Count}`,
i.e. the granted count equals the requested count exactly. -/
def allocateAtLeastFallback (b : Policy) (fresh count : Nat) :
    Except Failure (Nat × Nat) :=
  (b.allocateRaw fresh).map fun p => (p, count)

/-- buffered_allocator::allocate_at_least (experimental_memory.h lines
114-119): a request of at most SZ is served from the inline buffer with
granted count SZ; a larger request is delegated to std::allocate_at_least on
the backing allocator (which has no member, hence the exact fallback). -/
def bufferedAllocateAtLeast (SZ inlineAddr : Nat) (b : Policy)
    (fresh count : Nat) : Except Failure (Nat × Nat) :=
  if count ≤ SZ then .ok (inlineAddr, SZ)
  else allocateAtLeastFallback b fresh count

/-- An allocator as instantiated by the container: a plain backing allocator
(buffer_capacity 0, no allocate_at_least member) or a
buffered_allocator<T, SZ, Backing> instance with inline-buffer address
`inlineAddr`. -/
inductive Alloc where
  | plain (backing : Policy)
  | buffered (SZ : Nat) (inlineAddr : Nat) (backing : Policy)
deriving DecidableEq, Repr

/-- allocator_info::buffer_capacity (experimental_memory.h lines 36-41, 61):
defaults to 0; buffered_allocator declares buffer_capacity = SZ. -/
def Alloc.buffer_capacity : Alloc → Nat
  | .plain _ => 0
  | .buffered SZ _ _ => SZ

/-- allocator_info::can_allocate for an allocator instance: buffered_allocator
re-exports can_allocate of its backing allocator (experimental_memory.h
line 88); plain allocators use the default/declared value. -/
def Alloc.can_allocate : Alloc → Bool
  | .plain b => b.canAllocate
  | .buffered _ _ b => b.canAllocate

/-- allocator_info::allocate_at_least(allocator, sz) as the container calls it
(experimental_memory.h line 65, forwarding to std::allocate_at_least):
buffered_allocator has an allocate_at_least member, plain allocators fall back
to the exact-count path. -/
def Alloc.allocateAtLeast : Alloc → Nat → Nat → Except Failure (Nat × Nat)
  | .plain b, fresh, count => allocateAtLeastFallback b fresh count
  | .buffered SZ addr b, fresh, count =>
      bufferedAllocateAtLeast SZ addr b fresh count

/-- buffered_allocator::allocate(count) always returns the inline-buffer
address (experimental_memory.h line 106); a plain allocator's allocate is its
backing behaviour.  Used by vector::data() in the !can_allocate case. -/
def Alloc.allocate0 : Alloc → Nat
  | .plain _ => 0
  | .buffered _ addr _ => addr

/-- The argument that Traits::deallocate forwards to the backing allocator,
if any: buffered_allocator::deallocate is a no-op exactly when the pointer is
the inline-buffer address, otherwise it forwards (experimental_memory.h lines
107-112); a plain allocator's deallocate always receives the pointer. -/
def freedTarget : Alloc → Nat → Option Nat
  | .plain _, p => some p
  | .buffered _ addr _, p => if p = addr then none else some p

/- ------------------------------------------------------------------ -/
/- Static (InlineSizeStorage) vector: vector<T, A> with !can_allocate. -/
/- ------------------------------------------------------------------ -/

/-- detail::__get_uint_holding (experimental_vector.h lines 12-22): the bit
width of the unsigned integer type chosen to hold sizes up to SZ. -/
def uintBits (SZ : Nat) : Nat :=
  if SZ < 256 then 8
  else if SZ < 65536 then 16
  else if SZ < 65536 * 65536 then 32
  else 64

/-- vector::set_size in the !can_allocate case (experimental_vector.h line
224): the size is stored through a cast to detail::uint_holding<buffer_capacity>,
i.e. truncated to that integer width. -/
def setSizeStatic (SZ sz : Nat) : Nat := sz % 2 ^ uintBits SZ

/-- vector_storage<T, SZ> for SZ > 0 (experimental_vector.h lines 29-31):
just the stored size integer.  `buf` carries the element values constructed in
the allocator's inline buffer (the element storage itself). -/
structure StaticVec (α : Type) where
  m_size : Nat
  buf : List α
deriving DecidableEq, Repr

/-- vector::reserve in the !can_allocate branch (experimental_vector.h lines
165-167 and 184-187): no-op when sz fits the (fixed) capacity = buffer_capacity;
otherwise allocate_at_least is invoked purely for its failure behaviour and its
result discarded, so the state never changes.  Returns the optional failure. -/
def reserveStatic (SZ : Nat) (pol : Policy) (sz : Nat) : Option Failure :=
  if sz ≤ SZ then none
  else
    match bufferedAllocateAtLeast SZ 0 pol 0 sz with
    | .ok _ => none
    | .error f => some f

/-- vector::bump for the static vector (experimental_vector.h lines 213-218):
nothing when sz ≤ size(), else reserve(max(sz, size() * 3 / 2)). -/
def bumpStatic (SZ : Nat) (pol : Policy) (sz : Nat) (s : StaticVec α) :
    Option Failure :=
  if sz ≤ s.m_size then none
  else reserveStatic SZ pol (max sz (s.m_size * 3 / 2))

/-- vector::push_back for the static vector (experimental_vector.h lines
155-159): bump(size()+1), then construct the element at end() and
set_size(size()+1).  On an allocation failure the exception propagates before
any mutation, so the state is returned unchanged. -/
def pushBackStatic (SZ : Nat) (pol : Policy) (v : α) (s : StaticVec α) :
    StaticVec α × Option Failure :=
  match bumpStatic SZ pol (s.m_size + 1) s with
  | some f => (s, some f)
  | none => (⟨setSizeStatic SZ (s.m_size + 1), s.buf ++ [v]⟩, none)

/-- vector::pop_back for the static vector (experimental_vector.h lines
160-163): set_size(size()-1) then destroy the element past the new end. -/
def popBackStatic (SZ : Nat) (s : StaticVec α) : StaticVec α :=
  ⟨setSizeStatic SZ (s.m_size - 1), s.buf.dropLast⟩

/-- The growing while-loop of vector::resize (experimental_vector.h lines
193-194), fuelled by the number of missing elements: push_back({}) until the
target size is reached or an allocation failure propagates out. -/
def growLoopStatic [Inhabited α] (SZ : Nat) (pol : Policy) :
    Nat → StaticVec α → StaticVec α × Option Failure
  | 0, s => (s, none)
  | n + 1, s =>
      match pushBackStatic SZ pol (default : α) s with
      | (s', none) => growLoopStatic SZ pol n s'
      | r => r

/-- The shrinking while-loop of vector::resize (experimental_vector.h lines
197-198), fuelled by the number of surplus elements. -/
def popLoopStatic (SZ : Nat) : Nat → StaticVec α → StaticVec α
  | 0, s => s
  | n + 1, s => popLoopStatic SZ n (popBackStatic SZ s)

/-- vector::resize for the static vector (experimental_vector.h lines
190-200): growing first bumps (propagating a failure with the state
unchanged) then pushes default-constructed elements; shrinking pops. -/
def resizeStatic [Inhabited α] (SZ : Nat) (pol : Policy) (sz : Nat)
    (s : StaticVec α) : StaticVec α × Option Failure :=
  if sz > s.m_size then
    match bumpStatic SZ pol sz s with
    | some f => (s, some f)
    | none => growLoopStatic SZ pol (sz - s.m_size) s
  else
    (popLoopStatic SZ (s.m_size - sz) s, none)

/-- vector::clear (experimental_vector.h line 201): resize(0). -/
def clearStatic [Inhabited α] (SZ : Nat) (pol : Policy) (s : StaticVec α) :
    StaticVec α × Option Failure :=
  resizeStatic SZ pol 0 s

/- ---------------------------------------------------------------- -/
/- Heap (pointer) vector: vector<T, A> with can_allocate == true.    -/
/- ---------------------------------------------------------------- -/

/-- vector_storage<T, 0> (experimental_vector.h lines 35-39): `m_begin` is the
abstract begin pointer, `elems` the live values (m_end = m_begin +
elems.length) and `cap` the capacity (m_capacity = m_begin + cap).  Default
construction (experimental_vector.h lines 58-63) gives ⟨0, [], 0⟩ (all three
pointers null). -/
structure HeapVec (α : Type) where
  m_begin : Nat
  elems : List α
  cap : Nat
deriving DecidableEq, Repr

/-- The all-null heap storage produced by default construction and by
clearing a moved-from source's pointers. -/
def HeapVec.null : HeapVec α := ⟨0, [], 0⟩

/-- Result of a heap-vector operation: the new state, the optional allocation
failure (the state then being the one at the instant the exception escaped),
the number of backing-allocator (heap) allocations performed, and the pointer
(if any) handed to the backing allocator's deallocate. -/
structure RRes (α : Type) where
  st : HeapVec α
  fail : Option Failure
  heapAllocs : Nat
  freed : Option Nat
deriving DecidableEq, Repr

/-- Number of backing-allocator allocations performed by one
allocate_at_least call: a plain allocator always hits the backing store; a
buffered allocator serves requests of at most SZ from its inline buffer
(experimental_memory.h lines 114-119). -/
def Alloc.heapAllocCount : Alloc → Nat → Nat
  | .plain _, _ => 1
  | .buffered SZ _ _, count => if count ≤ SZ then 0 else 1

/-- vector::reserve in the can_allocate branch (experimental_vector.h lines
165-183): no-op when sz ≤ capacity(); otherwise allocate_at_least, move every
existing element into the new block in order, deallocate the old block, and
adopt the new block's bounds (begin = result.ptr, capacity = result.count,
end = begin + old size).  A failing allocation escapes before any mutation. -/
def reserveH (a : Alloc) (fresh sz : Nat) (s : HeapVec α) : RRes α :=
  if sz ≤ s.cap then ⟨s, none, 0, none⟩
  else
    match a.allocateAtLeast fresh sz with
    | .ok (p, c) => ⟨⟨p, s.elems, c⟩, none, a.heapAllocCount sz, freedTarget a s.m_begin⟩
    | .error f => ⟨s, some f, 0, none⟩

/-- vector::bump (experimental_vector.h lines 213-218) for the heap vector:
nothing when sz ≤ size(), else reserve(max(sz, size() * 3 / 2)). -/
def bumpH (a : Alloc) (fresh sz : Nat) (s : HeapVec α) : RRes α :=
  if sz ≤ s.elems.length then ⟨s, none, 0, none⟩
  else reserveH a fresh (max sz (s.elems.length * 3 / 2)) s

/-- vector::push_back (experimental_vector.h lines 155-159) for the heap
vector: bump(size()+1), construct the element at end(), set_size(size()+1). -/
def pushBackH (a : Alloc) (fresh : Nat) (v : α) (s : HeapVec α) : RRes α :=
  match bumpH a fresh (s.elems.length + 1) s with
  | ⟨s', none, h, f⟩ => ⟨⟨s'.m_begin, s'.elems ++ [v], s'.cap⟩, none, h, f⟩
  | r => r

/-- vector::pop_back (experimental_vector.h lines 160-163) for the heap
vector: set_size(size()-1), destroy the element past the new end. -/
def popBackH (s : HeapVec α) : HeapVec α :=
  ⟨s.m_begin, s.elems.dropLast, s.cap⟩

/-- Element-operation counts of one take_elements / copy_elements call
(the assign / construct / destroy loops of experimental_vector.h lines
232-250 and 259-278, exclusive of any reallocation inside reserve). -/
structure Xfer where
  assigns : Nat
  constructs : Nat
  destroys : Nat
deriving DecidableEq, Repr

/-- The prefix-overlap discipline of take_elements / copy_elements
(experimental_vector.h lines 232-250): with current size destSize and target
count, assign over the common prefix, then either construct the missing
elements (growing) or destroy the surplus (shrinking). -/
def transferCounts (destSize count : Nat) : Xfer :=
  if count > destSize then ⟨destSize, count - destSize, 0⟩
  else ⟨count, 0, destSize - count⟩

/-- vector::take_elements (experimental_vector.h lines 227-253) for a heap
destination: reserve(count), then move-assign into the common prefix,
construct the remainder (growing) or destroy the surplus (shrinking), and
set_size(count).  The resulting buffer holds the first `count` source values;
the element-operation counts are those of the two loops. -/
def takeElementsH (a : Alloc) (fresh : Nat) (src : List α) (count : Nat)
    (s : HeapVec α) : RRes α × Xfer :=
  match reserveH a fresh count s with
  | ⟨s', none, h, f⟩ =>
      (⟨⟨s'.m_begin, src.take count, s'.cap⟩, none, h, f⟩,
       transferCounts s'.elems.length count)
  | r => (r, ⟨0, 0, 0⟩)

/-- vector::copy_elements (experimental_vector.h lines 254-281) for a heap
destination: identical control flow to take_elements with copy-assign /
copy-construct instead of the move forms; on the value level the destination
receives the same element values. -/
def copyElementsH (a : Alloc) (fresh : Nat) (src : List α) (count : Nat)
    (s : HeapVec α) : RRes α × Xfer :=
  match reserveH a fresh count s with
  | ⟨s', none, h, f⟩ =>
      (⟨⟨s'.m_begin, src.take count, s'.cap⟩, none, h, f⟩,
       transferCounts s'.elems.length count)
  | r => (r, ⟨0, 0, 0⟩)

/-- vector::take_elements for a static (InlineSizeStorage) destination:
reserve(count) fires the overflow policy when count exceeds the fixed
capacity; on success the loops run against dest = data() (the inline buffer)
with the current size, and set_size(count) stores the (truncated) count. -/
def takeElementsStatic (SZ : Nat) (pol : Policy) (src : List α) (count : Nat)
    (s : StaticVec α) : (StaticVec α × Option Failure) × Xfer :=
  match reserveStatic SZ pol count with
  | some f => ((s, some f), ⟨0, 0, 0⟩)
  | none =>
      ((⟨setSizeStatic SZ count, src.take count⟩, none),
       transferCounts s.m_size count)

/-- vector::copy_elements for a static destination (same control flow as
takeElementsStatic with the copy forms of assign/construct). -/
def copyElementsStatic (SZ : Nat) (pol : Policy) (src : List α) (count : Nat)
    (s : StaticVec α) : (StaticVec α × Option Failure) × Xfer :=
  match reserveStatic SZ pol count with
  | some f => ((s, some f), ⟨0, 0, 0⟩)
  | none =>
      ((⟨setSizeStatic SZ count, src.take count⟩, none),
       transferCounts s.m_size count)

/-- vector::destroy_me (experimental_vector.h lines 209-212) for the heap
vector: clear() destroys all elements (m_end = m_begin), then
Traits::deallocate(data(), capacity()) releases the block.  The begin and
capacity pointers are NOT reset.  Returns the new state and the pointer
forwarded to the backing allocator's deallocate, if any. -/
def destroyMeH (a : Alloc) (s : HeapVec α) : HeapVec α × Option Nat :=
  (⟨s.m_begin, [], s.cap⟩, freedTarget a s.m_begin)

/- ---------------------------------------------------------------- -/
/- Cross-allocator move / copy construction and assignment.          -/
/- ---------------------------------------------------------------- -/

/-- The capacity/size part of the move-constructor fast-path test
(experimental_vector.h line 71):
`src.capacity() > allocator_info::buffer_capacity<A> || src.size() > buffer_capacity`,
i.e. source capacity above the SOURCE allocator's inline capacity, OR source
size above the DESTINATION's inline capacity. -/
def moveCtorCapSizeCond (srcBufCap dstBufCap srcCap srcSize : Nat) : Bool :=
  decide (srcCap > srcBufCap) || decide (srcSize > dstBufCap)

/-- The capacity/size part of the move-assignment fast-path test
(experimental_vector.h line 95):
`src.capacity() > allocator_info::buffer_capacity<A> && src.size() > buffer_capacity`. -/
def moveAssignCapSizeCond (srcBufCap dstBufCap srcCap srcSize : Nat) : Bool :=
  decide (srcCap > srcBufCap) && decide (srcSize > dstBufCap)

/-- Result of a cross-allocator move construction / assignment between two
heap-capable containers: destination state, the source's state afterwards,
whether the constant-time pointer-transfer path was taken, the optional
failure, the heap-allocation count, and the element-operation counts of the
take_elements loops (zero on the fast path). -/
structure MvRes (α : Type) where
  dst : HeapVec α
  srcAfter : HeapVec α
  fastPath : Bool
  fail : Option Failure
  heapAllocs : Nat
  xfer : Xfer
deriving DecidableEq, Repr

/-- vector's cross-allocator move constructor (experimental_vector.h lines
68-85) for a heap-capable destination.  `sameBacking` is the compile-time
`is_same_v<Backing, BA>` fact.  When the fast path is taken the backing
allocator instance and the three storage pointers move over and the source's
pointers are nulled, with no element operation and no allocation; otherwise
the freshly default-initialised destination runs
take_elements(src.data(), src.size()) and the source is cleared. -/
def moveConstructH (aDst aSrc : Alloc) (sameBacking : Bool) (fresh : Nat)
    (src : HeapVec α) : MvRes α :=
  if sameBacking && aSrc.can_allocate
      && moveCtorCapSizeCond aSrc.buffer_capacity aDst.buffer_capacity
           src.cap src.elems.length then
    ⟨src, HeapVec.null, true, none, 0, ⟨0, 0, 0⟩⟩
  else
    match takeElementsH aDst fresh src.elems src.elems.length HeapVec.null with
    | (⟨d, none, h, _⟩, x) =>
        ⟨d, ⟨src.m_begin, [], src.cap⟩, false, none, h, x⟩
    | (⟨d, some f, h, _⟩, x) => ⟨d, src, false, some f, h, x⟩

/-- vector's cross-allocator move assignment (experimental_vector.h lines
92-114) for a heap-capable destination.  The fast path additionally requires
assignment-legality (propagate_on_container_move_assignment, is_always_equal,
or equal allocator instances, line 96); it first tears the destination down
(destroy_me) and then moves the storage pointers over, nulling the source's.
Otherwise take_elements runs against the CURRENT destination state and the
source is cleared. -/
def moveAssignH (aDst aSrc : Alloc) (sameBacking propagateMove alwaysEq
    allocEq : Bool) (fresh : Nat) (src dst : HeapVec α) : MvRes α :=
  if sameBacking && aSrc.can_allocate
      && moveAssignCapSizeCond aSrc.buffer_capacity aDst.buffer_capacity
           src.cap src.elems.length
      && (propagateMove || alwaysEq || allocEq) then
    ⟨src, HeapVec.null, true, none, 0, ⟨0, 0, 0⟩⟩
  else
    match takeElementsH aDst fresh src.elems src.elems.length dst with
    | (⟨d, none, h, _⟩, x) =>
        ⟨d, ⟨src.m_begin, [], src.cap⟩, false, none, h, x⟩
    | (⟨d, some f, h, _⟩, x) => ⟨d, src, false, some f, h, x⟩

/-- vector's cross-allocator copy constructor (experimental_vector.h lines
86-88) for a heap-capable destination: always
copy_elements(src.data(), src.size()) on a default-initialised state. -/
def copyConstructH (aDst : Alloc) (fresh : Nat) (src : List α) :
    RRes α × Xfer :=
  copyElementsH aDst fresh src src.length HeapVec.null

/-- vector's cross-allocator move constructor with a static
(InlineSizeStorage) destination and a heap-capable source.  The destination's
backing allocator cannot allocate while the source's can, so the compile-time
fast-path test is necessarily false and the generic path always runs.  `g` is
the value of the destination's size field, which the constructor leaves
UNINITIALISED (vector_storage<T, SZ> has no default member initialiser and the
move constructor never writes m_size before take_elements reads size()). -/
def moveConstructStaticFromHeap (SZ : Nat) (pol : Policy) (g : Nat)
    (src : HeapVec α) : (StaticVec α × HeapVec α) × Option Failure × Xfer :=
  match takeElementsStatic SZ pol src.elems src.elems.length ⟨g, []⟩ with
  | ((d, none), x) => ((d, ⟨src.m_begin, [], src.cap⟩), none, x)
  | ((d, some f), x) => ((d, src), some f, x)

/-- vector's cross-allocator copy assignment (experimental_vector.h lines
116-131) for a heap-capable destination, in the propagating case
(is_same_v<Backing, BA> && propagate_on_container_copy_assignment):
when the allocators are not always-equal and compare unequal, destroy_me runs
first (leaving the stale begin/capacity pointers in place), the allocator is
copied, and then copy_elements(src.data(), src.size()) runs. -/
def copyAssignH (aDst : Alloc) (fresh : Nat) (propagate alwaysEq allocEq : Bool)
    (src : List α) (s : HeapVec α) : RRes α × Xfer :=
  let s1 := if propagate && (!alwaysEq && !allocEq) then (destroyMeH aDst s).1 else s
  copyElementsH aDst fresh src src.length s1

/- ---------------------------------------------------------------- -/
/- Spec-side predicate (for the refinement comparison of claim C1).  -/
/- ---------------------------------------------------------------- -/

/-- Modelled from the spec's words (spec section 4.5, cross-allocator move
construction): the constant-time transfer is taken exactly when both
allocators resolve to the same backing-allocator identity, the source's
allocator can allocate, and the source's current capacity exceeds what would
fit in the DESTINATION's inline buffer. -/
def moveCtorFastPathSpec (sameBacking srcCanAlloc : Bool)
    (srcCap dstBufCap : Nat) : Bool :=
  sameBacking && srcCanAlloc && decide (srcCap > dstBufCap)

/-- vector's cross-allocator move constructor with a heap-capable destination
and a static (InlineSizeStorage) source.  can_allocate<A> is false for the
source's allocator, so the compile-time fast-path test of
experimental_vector.h line 70 is false and the generic path always runs:
take_elements(src.data(), src.size()) — src.data() is the source's inline
buffer and src.size() its stored size field — followed by src.clear(). -/
def moveConstructHFromStatic [Inhabited α] (aDst : Alloc) (SZs : Nat)
    (pols : Policy) (fresh : Nat) (src : StaticVec α) :
    (HeapVec α × StaticVec α) × Option Failure × Xfer :=
  match takeElementsH aDst fresh src.buf src.m_size HeapVec.null with
  | (⟨d, none, _, _⟩, x) => ((d, (clearStatic SZs pols src).1), none, x)
  | (⟨d, some f, _, _⟩, x) => ((d, src), some f, x)

/-- vector's cross-allocator move assignment with a heap-capable destination
and a static source (test_vector.cpp line 47: v = std::move(svec)).  The
compile-time fast-path test is false (can_allocate<A> is false), so
take_elements runs against the CURRENT destination state, then src.clear(). -/
def moveAssignHFromStatic [Inhabited α] (aDst : Alloc) (SZs : Nat)
    (pols : Policy) (fresh : Nat) (src : StaticVec α) (dst : HeapVec α) :
    (HeapVec α × StaticVec α) × Option Failure × Xfer :=
  match takeElementsH aDst fresh src.buf src.m_size dst with
  | (⟨d, none, _, _⟩, x) => ((d, (clearStatic SZs pols src).1), none, x)
  | (⟨d, some f, _, _⟩, x) => ((d, src), some f, x)

/-- vector's cross-allocator move assignment with a static destination and a
heap-capable source (test_vector.cpp line 40's assignment analogue).  The
destination's backing allocator cannot allocate while the source's can, so
the backing identities necessarily differ and the compile-time fast-path test
is false: take_elements against the current static destination, then
src.clear() (which keeps the heap source's begin/capacity pointers). -/
def moveAssignStaticFromHeap (SZd : Nat) (pold : Policy) (src : HeapVec α)
    (dst : StaticVec α) :
    (StaticVec α × HeapVec α) × Option Failure × Xfer :=
  match takeElementsStatic SZd pold src.elems src.elems.length dst with
  | ((d, none), x) => ((d, ⟨src.m_begin, [], src.cap⟩), none, x)
  | ((d, some f), x) => ((d, src), some f, x)

/-- vector's cross-allocator move constructor between two static containers
(possibly over the same sentinel backing: can_allocate<A> is still false, so
the fast path is impossible and the generic path always runs).  `g` is the
destination's uninitialised size field, as in moveConstructStaticFromHeap. -/
def moveConstructStaticFromStatic [Inhabited α] (SZd : Nat) (pold : Policy)
    (SZs : Nat) (pols : Policy) (g : Nat) (src : StaticVec α) :
    (StaticVec α × StaticVec α) × Option Failure × Xfer :=
  match takeElementsStatic SZd pold src.buf src.m_size ⟨g, []⟩ with
  | ((d, none), x) => ((d, (clearStatic SZs pols src).1), none, x)
  | ((d, some f), x) => ((d, src), some f, x)

/-- vector's cross-allocator move assignment between two static containers:
generic path against the current destination, then src.clear(). -/
def moveAssignStaticFromStatic [Inhabited α] (SZd : Nat) (pold : Policy)
    (SZs : Nat) (pols : Policy) (src dst : StaticVec α) :
    (StaticVec α × StaticVec α) × Option Failure × Xfer :=
  match takeElementsStatic SZd pold src.buf src.m_size dst with
  | ((d, none), x) => ((d, (clearStatic SZs pols src).1), none, x)
  | ((d, some f), x) => ((d, src), some f, x)

/-- vector's cross-allocator copy assignment with a static destination: the
propagating constexpr branch of experimental_vector.h line 123 is inactive
(the sentinel backing allocators do not declare the propagate-on-copy trait),
so the operation is copy_elements(src.data(), src.size()) on the current
destination state. -/
def copyAssignStatic (SZ : Nat) (pol : Policy) (src : List α)
    (s : StaticVec α) : (StaticVec α × Option Failure) × Xfer :=
  copyElementsStatic SZ pol src src.length s

/-- The public reserve call on a static vector: the !can_allocate branch of
vector::reserve never touches the storage (experimental_vector.h lines
184-187 discard the allocation result), so the state is returned as-is
together with the policy's failure, if any. -/
def reserveStaticOp (SZ : Nat) (pol : Policy) (sz : Nat) (s : StaticVec α) :
    StaticVec α × Option Failure :=
  (s, reserveStatic SZ pol sz)

/- ---------------------------------------------------------------- -/
/- Concrete instances used by the test-derived scenarios.            -/
/- ---------------------------------------------------------------- -/

/-- The allocator of std::sbo_vector<int, 3> from test_vector.cpp line 19:
buffered_allocator<int, 3, std::allocator<int>> (inline-buffer address 10). -/
def sboDemoA : Alloc := .buffered 3 10 .heapOk

/-- test_vector.cpp line 21: sbo.push_back(1) on the default-constructed
sbo_vector<int, 3>. -/
def sboP1 : RRes Nat := pushBackH sboDemoA 101 1 HeapVec.null

/-- test_vector.cpp line 23: sbo.push_back(2). -/
def sboP2 : RRes Nat := pushBackH sboDemoA 102 2 sboP1.st

/-- test_vector.cpp line 25: sbo.push_back(3). -/
def sboP3 : RRes Nat := pushBackH sboDemoA 103 3 sboP2.st

/-- test_vector.cpp line 27: sbo.push_back(4) — the first push that must hit
the heap. -/
def sboP4 : RRes Nat := pushBackH sboDemoA 104 4 sboP3.st

/-- test_vector.cpp line 29: sbo.push_back(5). -/
def sboP5 : RRes Nat := pushBackH sboDemoA 105 5 sboP4.st

/-- An sbo_vector<int, 3> state holding [1, 2, 3] entirely in its inline
buffer (capacity 3): the state after the first three pushes, used as the
concrete pre-state of the growth-factor counterexample. -/
def sboFull3 : HeapVec Nat := ⟨10, [1, 2, 3], 3⟩

/- ---------------------------------------------------------------- -/
/- Helper lemmas.                                                    -/
/- ---------------------------------------------------------------- -/

/-- A heap-capable allocator's allocate_at_least never fails and always
grants at least the requested count. -/
theorem allocateAtLeast_heap (a : Alloc) (fresh n : Nat)
    (hca : a.can_allocate = true) :
    ∃ p c, a.allocateAtLeast fresh n = Except.ok (p, c) ∧ n ≤ c := by
  rcases a with b | ⟨SZ, addr, b⟩
  · cases b
    case heapOk => exact ⟨fresh, n, rfl, le_refl n⟩
    all_goals simp [Alloc.can_allocate, Policy.canAllocate] at hca
  · cases b
    case heapOk =>
      by_cases h : n ≤ SZ
      · exact ⟨addr, SZ,
          by simp [Alloc.allocateAtLeast, bufferedAllocateAtLeast, h], h⟩
      · refine ⟨fresh, n, ?_, le_refl n⟩
        simp [Alloc.allocateAtLeast, bufferedAllocateAtLeast, h,
          allocateAtLeastFallback, Policy.allocateRaw]
        rfl
    all_goals simp [Alloc.can_allocate, Policy.canAllocate] at hca

/-- reserve never changes the element values. -/
theorem reserveH_elems (a : Alloc) (fresh sz : Nat) (s : HeapVec α) :
    (reserveH a fresh sz s).st.elems = s.elems := by
  unfold reserveH
  split
  · rfl
  · rcases h : a.allocateAtLeast fresh sz with f | ⟨p, c⟩ <;> simp [h]

/-- reserve with a target within the current capacity is the identity. -/
theorem reserveH_noop (a : Alloc) (fresh sz : Nat) (s : HeapVec α)
    (h : sz ≤ s.cap) : reserveH a fresh sz s = ⟨s, none, 0, none⟩ := by
  simp [reserveH, h]

/-- reserve on a heap-capable allocator: never fails, keeps the elements,
reaches a capacity of at least the request, and (when growing) passes the old
begin pointer to deallocate. -/
theorem reserveH_heap (a : Alloc) (fresh sz : Nat) (s : HeapVec α)
    (hca : a.can_allocate = true) :
    (reserveH a fresh sz s).fail = none
    ∧ (reserveH a fresh sz s).st.elems = s.elems
    ∧ sz ≤ (reserveH a fresh sz s).st.cap
    ∧ (s.cap < sz →
        (reserveH a fresh sz s).freed = freedTarget a s.m_begin) := by
  by_cases h : sz ≤ s.cap
  · simp [reserveH_noop a fresh sz s h]
    omega
  · obtain ⟨p, c, hok, hc⟩ := allocateAtLeast_heap a fresh sz hca
    simp [reserveH, h, hok, hc]

/-- push_back on a heap-capable allocator: no failure, the new value is
appended after the existing elements. -/
theorem pushBackH_heap (a : Alloc) (fresh : Nat) (v : α) (s : HeapVec α)
    (hca : a.can_allocate = true) :
    (pushBackH a fresh v s).fail = none
    ∧ (pushBackH a fresh v s).st.elems = s.elems ++ [v] := by
  have hb : ¬ (s.elems.length + 1 ≤ s.elems.length) := by omega
  obtain ⟨hf, he, _, _⟩ := reserveH_heap a fresh
    (max (s.elems.length + 1) (s.elems.length * 3 / 2)) s hca
  unfold pushBackH bumpH
  rw [if_neg hb]
  rcases hr : reserveH a fresh
      (max (s.elems.length + 1) (s.elems.length * 3 / 2)) s with ⟨s', fl, hh, ff⟩
  rw [hr] at hf he
  simp at hf he
  subst hf
  simp [he]

/-- take_elements on a heap destination, when the initial reserve does not
fail: the destination receives the first `count` source values and the
element-operation counts follow the prefix-overlap rule against the
destination's previous size. -/
theorem takeElementsH_spec (a : Alloc) (fresh : Nat) (src : List α)
    (count : Nat) (s : HeapVec α)
    (h : (takeElementsH a fresh src count s).1.fail = none) :
    (takeElementsH a fresh src count s).1.st.elems = src.take count
    ∧ (takeElementsH a fresh src count s).2
        = transferCounts s.elems.length count := by
  have he := reserveH_elems a fresh count s
  rcases hr : reserveH a fresh count s with ⟨s', fl, hh, ff⟩
  rw [hr] at he
  simp at he
  unfold takeElementsH at h ⊢
  rw [hr] at h ⊢
  cases fl
  · simp [he]
  · simp at h

/-- The chosen size-integer width always holds values up to SZ, as long as SZ
itself fits in 64 bits (SZ is a size_t in the source). -/
theorem setSizeStatic_eq (SZ sz : Nat) (hSZ : SZ < 2 ^ 64) (h : sz ≤ SZ) :
    setSizeStatic SZ sz = sz := by
  unfold setSizeStatic uintBits
  split_ifs with h1 h2 h3 <;> (apply Nat.mod_eq_of_lt; norm_num at hSZ ⊢; omega)

/-- For the raising and terminating policies, the static-vector reserve
succeeds exactly when the request fits the fixed capacity. -/
theorem reserveStatic_none_rt (SZ : Nat) (pol : Policy) (r : Nat)
    (hpol : pol = Policy.raising ∨ pol = Policy.terminating) :
    reserveStatic SZ pol r = none ↔ r ≤ SZ := by
  unfold reserveStatic
  by_cases h : r ≤ SZ
  · simp [h]
  · rcases hpol with hp | hp <;> subst hp <;>
      simp [h, bufferedAllocateAtLeast, allocateAtLeastFallback,
        Policy.allocateRaw, Except.map]

/-- push_back on a static vector under the raising or terminating policy
keeps the stored size within the fixed capacity. -/
theorem pushBackStatic_size_le (SZ : Nat) (pol : Policy) (v : α)
    (s : StaticVec α)
    (hpol : pol = Policy.raising ∨ pol = Policy.terminating)
    (hSZ : SZ < 2 ^ 64) (hs : s.m_size ≤ SZ) :
    (pushBackStatic SZ pol v s).1.m_size ≤ SZ := by
  unfold pushBackStatic bumpStatic
  have hlt : ¬ (s.m_size + 1 ≤ s.m_size) := by omega
  rw [if_neg hlt]
  rcases hr : reserveStatic SZ pol (max (s.m_size + 1) (s.m_size * 3 / 2)) with
    _ | f
  · have hle : max (s.m_size + 1) (s.m_size * 3 / 2) ≤ SZ :=
      (reserveStatic_none_rt SZ pol _ hpol).mp hr
    have h1 : s.m_size + 1 ≤ SZ := le_trans (le_max_left _ _) hle
    simp [setSizeStatic_eq SZ (s.m_size + 1) hSZ h1, h1]
  · exact hs

/-- The grow loop of resize preserves the size bound under the raising and
terminating policies. -/
theorem growLoopStatic_size_le [Inhabited α] (SZ : Nat) (pol : Policy)
    (hpol : pol = Policy.raising ∨ pol = Policy.terminating)
    (hSZ : SZ < 2 ^ 64) :
    ∀ (n : Nat) (s : StaticVec α), s.m_size ≤ SZ →
      (growLoopStatic SZ pol n s).1.m_size ≤ SZ := by
  intro n
  induction n with
  | zero => intro s hs; exact hs
  | succ m ih =>
      intro s hs
      unfold growLoopStatic
      rcases hp : pushBackStatic SZ pol (default : α) s with ⟨s', fl⟩
      have hps : s'.m_size ≤ SZ := by
        have := pushBackStatic_size_le SZ pol (default : α) s hpol hSZ hs
        rw [hp] at this
        exact this
      cases fl
      · simpa using ih s' hps
      · simpa using hps

/-- pop_back keeps the size bound. -/
theorem popBackStatic_size_le (SZ : Nat) (s : StaticVec α)
    (hSZ : SZ < 2 ^ 64) (hs : s.m_size ≤ SZ) :
    (popBackStatic SZ s).m_size ≤ SZ := by
  unfold popBackStatic
  have h1 : s.m_size - 1 ≤ SZ := by omega
  simp [setSizeStatic_eq SZ (s.m_size - 1) hSZ h1, h1]

/-- The shrink loop of resize keeps the size bound. -/
theorem popLoopStatic_size_le (SZ : Nat) (hSZ : SZ < 2 ^ 64) :
    ∀ (n : Nat) (s : StaticVec α), s.m_size ≤ SZ →
      (popLoopStatic SZ n s).m_size ≤ SZ := by
  intro n
  induction n with
  | zero => intro s hs; exact hs
  | succ m ih =>
      intro s hs
      exact ih _ (popBackStatic_size_le SZ s hSZ hs)

/-- copy_elements on a heap destination: same value-level behaviour. -/
theorem copyElementsH_spec (a : Alloc) (fresh : Nat) (src : List α)
    (count : Nat) (s : HeapVec α)
    (h : (copyElementsH a fresh src count s).1.fail = none) :
    (copyElementsH a fresh src count s).1.st.elems = src.take count
    ∧ (copyElementsH a fresh src count s).2
        = transferCounts s.elems.length count := by
  have he := reserveH_elems a fresh count s
  rcases hr : reserveH a fresh count s with ⟨s', fl, hh, ff⟩
  rw [hr] at he
  simp at he
  unfold copyElementsH at h ⊢
  rw [hr] at h ⊢
  cases fl
  · simp [he]
  · simp at h

/-- The exact-count fallback of std::allocate_at_least grants exactly the
requested count. -/
theorem allocateAtLeastFallback_ok (b : Policy) (fresh n p c : Nat)
    (h : allocateAtLeastFallback b fresh n = Except.ok (p, c)) : c = n := by
  cases b <;>
    simp [allocateAtLeastFallback, Policy.allocateRaw, Except.map] at h <;>
    omega

/-- The fast-path flag of the cross-allocator move constructor equals the
compile-time-and-runtime test of experimental_vector.h lines 70-71. -/
theorem moveConstructH_fastPath (α : Type) (aDst aSrc : Alloc) (sb : Bool)
    (fresh : Nat) (src : HeapVec α) :
    (moveConstructH aDst aSrc sb fresh src).fastPath
      = (sb && aSrc.can_allocate
          && moveCtorCapSizeCond aSrc.buffer_capacity aDst.buffer_capacity
              src.cap src.elems.length) := by
  unfold moveConstructH
  split
  case isTrue h => simp [h]
  case isFalse h =>
    rcases ht : takeElementsH aDst fresh src.elems src.elems.length
        HeapVec.null with ⟨⟨d, fl, hh, ff⟩, x⟩
    rw [Bool.not_eq_true] at h
    cases fl <;> simp [ht, h]

/-- The fast-path flag of the cross-allocator move assignment equals the
test of experimental_vector.h lines 94-96. -/
theorem moveAssignH_fastPath (α : Type) (aDst aSrc : Alloc)
    (sb pm ae aeq : Bool) (fresh : Nat) (src dst : HeapVec α) :
    (moveAssignH aDst aSrc sb pm ae aeq fresh src dst).fastPath
      = (sb && aSrc.can_allocate
          && moveAssignCapSizeCond aSrc.buffer_capacity aDst.buffer_capacity
              src.cap src.elems.length
          && (pm || ae || aeq)) := by
  unfold moveAssignH
  split
  case isTrue h => simp [h]
  case isFalse h =>
    rcases ht : takeElementsH aDst fresh src.elems src.elems.length dst with
      ⟨⟨d, fl, hh, ff⟩, x⟩
    rw [Bool.not_eq_true] at h
    cases fl <;> simp [ht, h]

/-- On successful completion, move construction leaves the source empty, and
on the slow path the destination holds the source's values with the
prefix-overlap element-operation counts (against the empty fresh state). -/
theorem moveConstructH_spec (α : Type) (aDst aSrc : Alloc) (sb : Bool)
    (fresh : Nat) (src : HeapVec α)
    (hf : (moveConstructH aDst aSrc sb fresh src).fail = none) :
    (moveConstructH aDst aSrc sb fresh src).srcAfter.elems = []
    ∧ ((moveConstructH aDst aSrc sb fresh src).fastPath = false →
        (moveConstructH aDst aSrc sb fresh src).dst.elems = src.elems
        ∧ (moveConstructH aDst aSrc sb fresh src).xfer
            = transferCounts 0 src.elems.length) := by
  by_cases hc : (sb && aSrc.can_allocate
      && moveCtorCapSizeCond aSrc.buffer_capacity aDst.buffer_capacity
          src.cap src.elems.length) = true
  · simp [moveConstructH, hc, HeapVec.null]
  · rw [Bool.not_eq_true] at hc
    rcases ht : takeElementsH aDst fresh src.elems src.elems.length
        HeapVec.null with ⟨⟨d, fl, hh, ff⟩, x⟩
    have hts : (takeElementsH aDst fresh src.elems src.elems.length
        HeapVec.null).1.fail = fl := by rw [ht]
    unfold moveConstructH at hf ⊢
    rw [hc] at hf ⊢
    rw [ht] at hf ⊢
    simp only [Bool.false_eq_true, if_false] at hf ⊢
    cases fl
    · obtain ⟨he, hx⟩ := takeElementsH_spec aDst fresh src.elems
        src.elems.length HeapVec.null (by rw [hts])
      rw [ht] at he hx
      simp at he hx ⊢
      exact ⟨he, hx⟩
    · simp at hf

/-- On successful completion, move assignment leaves the source empty, and on
the slow path the destination holds the source's values with the
prefix-overlap counts against the destination's previous size. -/
theorem moveAssignH_spec (α : Type) (aDst aSrc : Alloc)
    (sb pm ae aeq : Bool) (fresh : Nat) (src dst : HeapVec α)
    (hf : (moveAssignH aDst aSrc sb pm ae aeq fresh src dst).fail = none) :
    (moveAssignH aDst aSrc sb pm ae aeq fresh src dst).srcAfter.elems = []
    ∧ ((moveAssignH aDst aSrc sb pm ae aeq fresh src dst).fastPath = false →
        (moveAssignH aDst aSrc sb pm ae aeq fresh src dst).dst.elems
            = src.elems
        ∧ (moveAssignH aDst aSrc sb pm ae aeq fresh src dst).xfer
            = transferCounts dst.elems.length src.elems.length) := by
  by_cases hc : (sb && aSrc.can_allocate
      && moveAssignCapSizeCond aSrc.buffer_capacity aDst.buffer_capacity
          src.cap src.elems.length && (pm || ae || aeq)) = true
  · simp [moveAssignH, hc, HeapVec.null]
  · rw [Bool.not_eq_true] at hc
    rcases ht : takeElementsH aDst fresh src.elems src.elems.length dst with
      ⟨⟨d, fl, hh, ff⟩, x⟩
    have hts : (takeElementsH aDst fresh src.elems
        src.elems.length dst).1.fail = fl := by rw [ht]
    unfold moveAssignH at hf ⊢
    rw [hc] at hf ⊢
    rw [ht] at hf ⊢
    simp only [Bool.false_eq_true, if_false] at hf ⊢
    cases fl
    · obtain ⟨he, hx⟩ := takeElementsH_spec aDst fresh src.elems
        src.elems.length dst (by rw [hts])
      rw [ht] at he hx
      simp at he hx ⊢
      exact ⟨he, hx⟩
    · simp at hf

/-- take_elements into a static destination, when reserve does not fire the
overflow policy: the destination holds the first count source values and the
counts follow the prefix-overlap rule against the previous size field. -/
theorem takeElementsStatic_spec (α : Type) (SZ : Nat) (pol : Policy)
    (src : List α) (count : Nat) (s : StaticVec α)
    (h : (takeElementsStatic SZ pol src count s).1.2 = none) :
    (takeElementsStatic SZ pol src count s).1.1
        = ⟨setSizeStatic SZ count, src.take count⟩
    ∧ (takeElementsStatic SZ pol src count s).2
        = transferCounts s.m_size count := by
  unfold takeElementsStatic at h ⊢
  rcases hr : reserveStatic SZ pol count with _ | f
  · simp [hr]
  · rw [hr] at h
    simp at h

/-- Move construction of a static destination from a heap-capable source, on
successful completion: the destination's buffer holds the source's values,
the source is left empty, and the loop counts follow the prefix-overlap rule
against the (uninitialised) destination size field g. -/
theorem moveConstructStaticFromHeap_spec (α : Type) (SZ : Nat) (pol : Policy)
    (g : Nat) (src : HeapVec α)
    (h : (moveConstructStaticFromHeap SZ pol g src).2.1 = none) :
    (moveConstructStaticFromHeap SZ pol g src).1.1.buf = src.elems
    ∧ (moveConstructStaticFromHeap SZ pol g src).1.2.elems = []
    ∧ (moveConstructStaticFromHeap SZ pol g src).2.2
        = transferCounts g src.elems.length := by
  rcases ht : takeElementsStatic SZ pol src.elems src.elems.length
      (⟨g, []⟩ : StaticVec α) with ⟨⟨d, fl⟩, x⟩
  have hts : (takeElementsStatic SZ pol src.elems src.elems.length
      (⟨g, []⟩ : StaticVec α)).1.2 = fl := by rw [ht]
  unfold moveConstructStaticFromHeap at h ⊢
  rw [ht] at h ⊢
  cases fl
  · obtain ⟨hd, hx⟩ := takeElementsStatic_spec α SZ pol src.elems
      src.elems.length ⟨g, []⟩ (by rw [hts])
    rw [ht] at hd hx
    simp at hd hx ⊢
    rw [hd, hx]
    simp
  · simp at h

/-- Popping n times from a static vector whose stored size is n (and fits the
capacity bound) reaches stored size 0. -/
theorem popLoopStatic_m_size_zero (SZ : Nat) (hSZ : SZ < 2 ^ 64) :
    ∀ (n : Nat) (s : StaticVec α), s.m_size = n → n ≤ SZ →
      (popLoopStatic SZ n s).m_size = 0 := by
  intro n
  induction n with
  | zero =>
      intro s h _
      simpa [popLoopStatic] using h
  | succ m ih =>
      intro s h hle
      unfold popLoopStatic
      apply ih
      · unfold popBackStatic
        simp only [h]
        exact setSizeStatic_eq SZ m hSZ (by omega)
      · omega

/-- clear on a static vector (resize(0), i.e. the shrink loop) takes the
stored size to 0. -/
theorem clearStatic_m_size (α : Type) [Inhabited α] (SZ : Nat) (pol : Policy)
    (s : StaticVec α) (hSZ : SZ < 2 ^ 64) (hs : s.m_size ≤ SZ) :
    (clearStatic SZ pol s).1.m_size = 0 := by
  unfold clearStatic resizeStatic
  rw [if_neg (by omega)]
  exact popLoopStatic_m_size_zero SZ hSZ (s.m_size - 0) s (by omega) (by omega)

/-- copy_elements into a static destination, when reserve does not fire the
overflow policy: same shape as takeElementsStatic_spec. -/
theorem copyElementsStatic_spec (α : Type) (SZ : Nat) (pol : Policy)
    (src : List α) (count : Nat) (s : StaticVec α)
    (h : (copyElementsStatic SZ pol src count s).1.2 = none) :
    (copyElementsStatic SZ pol src count s).1.1
        = ⟨setSizeStatic SZ count, src.take count⟩
    ∧ (copyElementsStatic SZ pol src count s).2
        = transferCounts s.m_size count := by
  unfold copyElementsStatic at h ⊢
  rcases hr : reserveStatic SZ pol count with _ | f
  · simp [hr]
  · rw [hr] at h
    simp at h

/-- Move construction of a heap destination from a static source, on
successful completion: destination takes the source's buffer prefix, source
is cleared, counts follow the prefix rule against the empty fresh state. -/
theorem moveConstructHFromStatic_spec (α : Type) [Inhabited α] (aDst : Alloc)
    (SZs : Nat) (pols : Policy) (fresh : Nat) (src : StaticVec α)
    (h : (moveConstructHFromStatic aDst SZs pols fresh src).2.1 = none) :
    (moveConstructHFromStatic aDst SZs pols fresh src).1.1.elems
        = src.buf.take src.m_size
    ∧ (moveConstructHFromStatic aDst SZs pols fresh src).1.2
        = (clearStatic SZs pols src).1
    ∧ (moveConstructHFromStatic aDst SZs pols fresh src).2.2
        = transferCounts 0 src.m_size := by
  rcases ht : takeElementsH aDst fresh src.buf src.m_size HeapVec.null with
    ⟨⟨d, fl, hh, ff⟩, x⟩
  have hts : (takeElementsH aDst fresh src.buf src.m_size
      HeapVec.null).1.fail = fl := by rw [ht]
  unfold moveConstructHFromStatic at h ⊢
  rw [ht] at h ⊢
  cases fl
  · obtain ⟨he, hx⟩ := takeElementsH_spec aDst fresh src.buf src.m_size
      HeapVec.null (by rw [hts])
    rw [ht] at he hx
    simp at he hx ⊢
    exact ⟨he, hx⟩
  · simp at h

/-- Move assignment of a heap destination from a static source, on successful
completion: destination takes the source's buffer prefix, source is cleared,
counts follow the prefix rule against the destination's previous size. -/
theorem moveAssignHFromStatic_spec (α : Type) [Inhabited α] (aDst : Alloc)
    (SZs : Nat) (pols : Policy) (fresh : Nat) (src : StaticVec α)
    (dst : HeapVec α)
    (h : (moveAssignHFromStatic aDst SZs pols fresh src dst).2.1 = none) :
    (moveAssignHFromStatic aDst SZs pols fresh src dst).1.1.elems
        = src.buf.take src.m_size
    ∧ (moveAssignHFromStatic aDst SZs pols fresh src dst).1.2
        = (clearStatic SZs pols src).1
    ∧ (moveAssignHFromStatic aDst SZs pols fresh src dst).2.2
        = transferCounts dst.elems.length src.m_size := by
  rcases ht : takeElementsH aDst fresh src.buf src.m_size dst with
    ⟨⟨d, fl, hh, ff⟩, x⟩
  have hts : (takeElementsH aDst fresh src.buf src.m_size dst).1.fail = fl :=
    by rw [ht]
  unfold moveAssignHFromStatic at h ⊢
  rw [ht] at h ⊢
  cases fl
  · obtain ⟨he, hx⟩ := takeElementsH_spec aDst fresh src.buf src.m_size dst
      (by rw [hts])
    rw [ht] at he hx
    simp at he hx ⊢
    exact ⟨he, hx⟩
  · simp at h

/-- Move assignment of a static destination from a heap source, on successful
completion: the destination buffer holds the source's values, the heap source
is left empty (pointers retained by clear), counts follow the prefix rule
against the destination's previous size field. -/
theorem moveAssignStaticFromHeap_spec (α : Type) (SZd : Nat) (pold : Policy)
    (src : HeapVec α) (dst : StaticVec α)
    (h : (moveAssignStaticFromHeap SZd pold src dst).2.1 = none) :
    (moveAssignStaticFromHeap SZd pold src dst).1.1.buf = src.elems
    ∧ (moveAssignStaticFromHeap SZd pold src dst).1.2.elems = []
    ∧ (moveAssignStaticFromHeap SZd pold src dst).2.2
        = transferCounts dst.m_size src.elems.length := by
  rcases ht : takeElementsStatic SZd pold src.elems src.elems.length dst with
    ⟨⟨d, fl⟩, x⟩
  have hts : (takeElementsStatic SZd pold src.elems
      src.elems.length dst).1.2 = fl := by rw [ht]
  unfold moveAssignStaticFromHeap at h ⊢
  rw [ht] at h ⊢
  cases fl
  · obtain ⟨hd, hx⟩ := takeElementsStatic_spec α SZd pold src.elems
      src.elems.length dst (by rw [hts])
    rw [ht] at hd hx
    simp at hd hx ⊢
    rw [hd, hx]
    simp
  · simp at h

/-- Move construction of a static destination from a static source, on
successful completion. -/
theorem moveConstructStaticFromStatic_spec (α : Type) [Inhabited α]
    (SZd : Nat) (pold : Policy) (SZs : Nat) (pols : Policy) (g : Nat)
    (src : StaticVec α)
    (h : (moveConstructStaticFromStatic SZd pold SZs pols g src).2.1
        = none) :
    (moveConstructStaticFromStatic SZd pold SZs pols g src).1.1.buf
        = src.buf.take src.m_size
    ∧ (moveConstructStaticFromStatic SZd pold SZs pols g src).1.2
        = (clearStatic SZs pols src).1
    ∧ (moveConstructStaticFromStatic SZd pold SZs pols g src).2.2
        = transferCounts g src.m_size := by
  rcases ht : takeElementsStatic SZd pold src.buf src.m_size
      (⟨g, []⟩ : StaticVec α) with ⟨⟨d, fl⟩, x⟩
  have hts : (takeElementsStatic SZd pold src.buf src.m_size
      (⟨g, []⟩ : StaticVec α)).1.2 = fl := by rw [ht]
  unfold moveConstructStaticFromStatic at h ⊢
  rw [ht] at h ⊢
  cases fl
  · obtain ⟨hd, hx⟩ := takeElementsStatic_spec α SZd pold src.buf src.m_size
      ⟨g, []⟩ (by rw [hts])
    rw [ht] at hd hx
    simp at hd hx ⊢
    rw [hd, hx]
    simp
  · simp at h

/-- Move assignment of a static destination from a static source, on
successful completion. -/
theorem moveAssignStaticFromStatic_spec (α : Type) [Inhabited α]
    (SZd : Nat) (pold : Policy) (SZs : Nat) (pols : Policy)
    (src dst : StaticVec α)
    (h : (moveAssignStaticFromStatic SZd pold SZs pols src dst).2.1 = none) :
    (moveAssignStaticFromStatic SZd pold SZs pols src dst).1.1.buf
        = src.buf.take src.m_size
    ∧ (moveAssignStaticFromStatic SZd pold SZs pols src dst).1.2
        = (clearStatic SZs pols src).1
    ∧ (moveAssignStaticFromStatic SZd pold SZs pols src dst).2.2
        = transferCounts dst.m_size src.m_size := by
  rcases ht : takeElementsStatic SZd pold src.buf src.m_size dst with
    ⟨⟨d, fl⟩, x⟩
  have hts : (takeElementsStatic SZd pold src.buf src.m_size dst).1.2 = fl :=
    by rw [ht]
  unfold moveAssignStaticFromStatic at h ⊢
  rw [ht] at h ⊢
  cases fl
  · obtain ⟨hd, hx⟩ := takeElementsStatic_spec α SZd pold src.buf src.m_size
      dst (by rw [hts])
    rw [ht] at hd hx
    simp at hd hx ⊢
    rw [hd, hx]
    simp
  · simp at h

/- ---------------------------------------------------------------- -/
/- Claim theorems.                                                   -/
/- ---------------------------------------------------------------- -/

/-- C1 (counterexample): the claim says the constant-time transfer is taken
exactly when the allocators share backing identity, the source can allocate,
and the source's capacity exceeds the DESTINATION's inline capacity.  Concrete
refutation: an sbo_vector<int, 10> source sitting in its full inline buffer
(capacity 10, size 2) moved into an sbo_vector<int, 3> over the same backing
allocator.  The spec-worded predicate is true (10 > 3), yet the code
(experimental_vector.h line 71: src.capacity() > buffer_capacity<A> ||
src.size() > buffer_capacity) takes the generic linear path. -/
theorem C1_counterexample :
    (moveConstructH (Alloc.buffered 3 50 Policy.heapOk)
        (Alloc.buffered 10 60 Policy.heapOk) true 99
        (⟨60, [1, 2], 10⟩ : HeapVec Nat)).fastPath = false
    ∧ moveCtorFastPathSpec true
        (Alloc.buffered 10 60 Policy.heapOk).can_allocate 10
        (Alloc.buffered 3 50 Policy.heapOk).buffer_capacity = true := by
  constructor <;> decide

/-- C1 (amended): the constant-time transfer path of cross-allocator move
construction is taken exactly when the two allocators resolve to the same
backing-allocator identity, the source's allocator can allocate, and (the
source's capacity exceeds the SOURCE's own inline-buffer capacity OR the
source's size exceeds the destination's inline-buffer capacity); on that path
the storage moves over with zero element operations and zero heap
allocations, and the source is reset to the null state. -/
theorem C1_fast_path_condition (α : Type) (aDst aSrc : Alloc) (sb : Bool)
    (fresh : Nat) (src : HeapVec α) :
    ((moveConstructH aDst aSrc sb fresh src).fastPath
      = (sb && aSrc.can_allocate
          && (decide (src.cap > aSrc.buffer_capacity)
              || decide (src.elems.length > aDst.buffer_capacity))))
    ∧ ((moveConstructH aDst aSrc sb fresh src).fastPath = true →
        (moveConstructH aDst aSrc sb fresh src).dst = src
        ∧ (moveConstructH aDst aSrc sb fresh src).srcAfter = HeapVec.null
        ∧ (moveConstructH aDst aSrc sb fresh src).xfer = ⟨0, 0, 0⟩
        ∧ (moveConstructH aDst aSrc sb fresh src).heapAllocs = 0) := by
  have hfast := moveConstructH_fastPath α aDst aSrc sb fresh src
  constructor
  · exact hfast
  · intro hfp
    rw [hfast] at hfp
    simp only [moveCtorCapSizeCond] at hfp
    simp [moveConstructH, moveCtorCapSizeCond, hfp]

/-- C1 (witness): the fast path at a concrete eligible input — an
sbo_vector<int, 3> source that has heap-allocated (capacity 6) moving into a
plain vector<int>. -/
theorem C1_witness :
    (moveConstructH (Alloc.plain Policy.heapOk)
        (Alloc.buffered 3 60 Policy.heapOk) true 99
        (⟨60, [1, 2, 3, 4, 5], 6⟩ : HeapVec Nat)).dst
      = (⟨60, [1, 2, 3, 4, 5], 6⟩ : HeapVec Nat)
    ∧ (moveConstructH (Alloc.plain Policy.heapOk)
        (Alloc.buffered 3 60 Policy.heapOk) true 99
        (⟨60, [1, 2, 3, 4, 5], 6⟩ : HeapVec Nat)).srcAfter = HeapVec.null
    ∧ (moveConstructH (Alloc.plain Policy.heapOk)
        (Alloc.buffered 3 60 Policy.heapOk) true 99
        (⟨60, [1, 2, 3, 4, 5], 6⟩ : HeapVec Nat)).xfer = ⟨0, 0, 0⟩
    ∧ (moveConstructH (Alloc.plain Policy.heapOk)
        (Alloc.buffered 3 60 Policy.heapOk) true 99
        (⟨60, [1, 2, 3, 4, 5], 6⟩ : HeapVec Nat)).heapAllocs = 0 :=
  (C1_fast_path_condition Nat (Alloc.plain Policy.heapOk)
      (Alloc.buffered 3 60 Policy.heapOk) true 99
      ⟨60, [1, 2, 3, 4, 5], 6⟩).2 (by decide)

/-- C2: the claim says the move constructor and move assignment decide the
constant-time transfer with the SAME capacity/size predicate.  The code uses
`||` in the constructor (experimental_vector.h line 71) but `&&` in the
assignment (line 95), against the identical code comment on both lines; with
source capacity 6, size 2, source inline capacity 3 and destination inline
capacity 3 (all assignment-legality conditions true), the constructor takes
the constant-time path while the assignment takes the linear path. -/
theorem C2_ctor_vs_assign_divergence :
    moveCtorCapSizeCond 3 3 6 2 = true
    ∧ moveAssignCapSizeCond 3 3 6 2 = false
    ∧ (moveConstructH (Alloc.buffered 3 50 Policy.heapOk)
        (Alloc.buffered 3 60 Policy.heapOk) true 99
        (⟨60, [1, 2], 6⟩ : HeapVec Nat)).fastPath = true
    ∧ (moveAssignH (Alloc.buffered 3 50 Policy.heapOk)
        (Alloc.buffered 3 60 Policy.heapOk) true true true true 99
        (⟨60, [1, 2], 6⟩ : HeapVec Nat) HeapVec.null).fastPath = false := by
  refine ⟨by decide, by decide, by decide, by decide⟩

/-- C3: a fixed-capacity container with inline capacity C already holding C
elements: the (C+1)-th pushBack raises under the raising policy leaving the
state unchanged, terminates under the terminating policy leaving the state
unchanged, and returns without raising under the unchecked policy. -/
theorem C3_static_overflow (α : Type) (C : Nat) (v : α) (s : StaticVec α)
    (h : s.m_size = C) :
    pushBackStatic C Policy.raising v s = (s, some Failure.raised)
    ∧ pushBackStatic C Policy.terminating v s = (s, some Failure.terminated)
    ∧ (pushBackStatic C Policy.unchecked v s).2 = none := by
  subst h
  have hlt : ¬ (s.m_size + 1 ≤ s.m_size) := by omega
  have hmax : ¬ (max (s.m_size + 1) (s.m_size * 3 / 2) ≤ s.m_size) := by
    have := le_max_left (s.m_size + 1) (s.m_size * 3 / 2)
    omega
  refine ⟨?_, ?_, ?_⟩ <;>
    simp [pushBackStatic, bumpStatic, reserveStatic, hlt, hmax,
      bufferedAllocateAtLeast, allocateAtLeastFallback, Policy.allocateRaw,
      Except.map]

/-- C3 (witness): static vectors of inline capacity 3 holding [1, 2, 3]. -/
theorem C3_witness :
    pushBackStatic 3 Policy.raising (4 : Nat) ⟨3, [1, 2, 3]⟩
        = (⟨3, [1, 2, 3]⟩, some Failure.raised)
    ∧ pushBackStatic 3 Policy.terminating (4 : Nat) ⟨3, [1, 2, 3]⟩
        = (⟨3, [1, 2, 3]⟩, some Failure.terminated)
    ∧ (pushBackStatic 3 Policy.unchecked (4 : Nat) ⟨3, [1, 2, 3]⟩).2 = none :=
  C3_static_overflow Nat 3 4 ⟨3, [1, 2, 3]⟩ rfl

/-- C5: reserve on a container whose allocator can allocate: a request within
the current capacity changes nothing at all; a growing request keeps the size
and element values, reaches capacity ≥ n, and hands the old begin pointer to
deallocate while adopting the new block's bounds. -/
theorem C5_reserve (α : Type) (a : Alloc) (fresh n : Nat) (s : HeapVec α)
    (hca : a.can_allocate = true) :
    (n ≤ s.cap → reserveH a fresh n s = ⟨s, none, 0, none⟩)
    ∧ (s.cap < n →
        (reserveH a fresh n s).fail = none
        ∧ (reserveH a fresh n s).st.elems = s.elems
        ∧ n ≤ (reserveH a fresh n s).st.cap
        ∧ (reserveH a fresh n s).freed = freedTarget a s.m_begin) := by
  constructor
  · intro h
    exact reserveH_noop a fresh n s h
  · intro h
    obtain ⟨h1, h2, h3, h4⟩ := reserveH_heap a fresh n s hca
    exact ⟨h1, h2, h3, h4 h⟩

/-- C5 (witness): a plain-allocator vector with capacity 4 holding [1, 2]:
reserve(2) is the identity and reserve(9) grows to capacity ≥ 9 keeping the
elements. -/
theorem C5_witness :
    reserveH (Alloc.plain Policy.heapOk) 7 2 (⟨5, [1, 2], 4⟩ : HeapVec Nat)
        = ⟨⟨5, [1, 2], 4⟩, none, 0, none⟩
    ∧ ((reserveH (Alloc.plain Policy.heapOk) 7 9
          (⟨5, [1, 2], 4⟩ : HeapVec Nat)).fail = none
       ∧ (reserveH (Alloc.plain Policy.heapOk) 7 9
          (⟨5, [1, 2], 4⟩ : HeapVec Nat)).st.elems = [1, 2]
       ∧ 9 ≤ (reserveH (Alloc.plain Policy.heapOk) 7 9
          (⟨5, [1, 2], 4⟩ : HeapVec Nat)).st.cap
       ∧ (reserveH (Alloc.plain Policy.heapOk) 7 9
          (⟨5, [1, 2], 4⟩ : HeapVec Nat)).freed
            = freedTarget (Alloc.plain Policy.heapOk) 5) :=
  ⟨(C5_reserve Nat (Alloc.plain Policy.heapOk) 7 2 ⟨5, [1, 2], 4⟩ rfl).1
      (by norm_num),
   (C5_reserve Nat (Alloc.plain Policy.heapOk) 7 9 ⟨5, [1, 2], 4⟩ rfl).2
      (by norm_num)⟩

/-- C9: allocateAtLeast always grants at least the requested count; the
member-less fallback grants exactly the request; the buffered adapter answers
a request of at most SZ with the inline buffer and count SZ, and otherwise
delegates to the allocation protocol against the backing allocator. -/
theorem C9_allocate_at_least (b : Policy) (SZ addr fresh n : Nat) :
    (∀ (a : Alloc) (p c : Nat),
        a.allocateAtLeast fresh n = Except.ok (p, c) → n ≤ c)
    ∧ (∀ p c : Nat,
        (Alloc.plain b).allocateAtLeast fresh n = Except.ok (p, c) → c = n)
    ∧ (n ≤ SZ →
        (Alloc.buffered SZ addr b).allocateAtLeast fresh n
          = Except.ok (addr, SZ))
    ∧ (SZ < n →
        (Alloc.buffered SZ addr b).allocateAtLeast fresh n
          = (Alloc.plain b).allocateAtLeast fresh n) := by
  refine ⟨?_, ?_, ?_, ?_⟩
  · intro a p c h
    rcases a with b' | ⟨SZ', addr', b'⟩
    · have := allocateAtLeastFallback_ok b' fresh n p c h
      omega
    · by_cases hle : n ≤ SZ'
      · simp [Alloc.allocateAtLeast, bufferedAllocateAtLeast, hle] at h
        omega
      · simp only [Alloc.allocateAtLeast, bufferedAllocateAtLeast,
          if_neg hle] at h
        have := allocateAtLeastFallback_ok b' fresh n p c h
        omega
  · intro p c h
    exact allocateAtLeastFallback_ok b fresh n p c h
  · intro hle
    simp [Alloc.allocateAtLeast, bufferedAllocateAtLeast, hle]
  · intro hgt
    simp [Alloc.allocateAtLeast, bufferedAllocateAtLeast, Nat.not_le.mpr hgt]

/-- C9 (witness): a buffered_allocator<T, 4, std::allocator> instance:
a request of 3 is served from the inline buffer with count 4; a request of 9
is delegated to the backing allocator and granted exactly 9. -/
theorem C9_witness :
    (Alloc.buffered 4 10 Policy.heapOk).allocateAtLeast 7 3
        = Except.ok (10, 4)
    ∧ (Alloc.buffered 4 10 Policy.heapOk).allocateAtLeast 7 9
        = (Alloc.plain Policy.heapOk).allocateAtLeast 7 9
    ∧ (3 : Nat) ≤ 4 :=
  ⟨(C9_allocate_at_least Policy.heapOk 4 10 7 3).2.2.1 (by norm_num),
   (C9_allocate_at_least Policy.heapOk 4 10 7 9).2.2.2 (by norm_num),
   (C9_allocate_at_least Policy.heapOk 4 10 7 3).1
      (Alloc.buffered 4 10 Policy.heapOk) 10 4 (by rfl)⟩

/-- C10: destroy_me empties the container and deallocates the block but
leaves the begin and capacity pointers untouched; hence after the tear-down
step of propagating copy assignment with unequal allocators, the destination
still reports the stale capacity and old data pointer, and the element copy
performs no fresh allocation when the source's count fits that stale
capacity. -/
theorem C10_destroy_me_frame (α : Type) (a : Alloc) (fresh : Nat)
    (src : List α) (s : HeapVec α) (h : src.length ≤ s.cap) :
    (destroyMeH a s).1.m_begin = s.m_begin
    ∧ (destroyMeH a s).1.cap = s.cap
    ∧ (destroyMeH a s).1.elems = []
    ∧ (∀ b : Policy, (destroyMeH (Alloc.plain b) s).2 = some s.m_begin)
    ∧ ((copyAssignH a fresh true false false src s).1.st.m_begin = s.m_begin
       ∧ (copyAssignH a fresh true false false src s).1.st.cap = s.cap
       ∧ (copyAssignH a fresh true false false src s).1.heapAllocs = 0
       ∧ (copyAssignH a fresh true false false src s).1.st.elems = src) := by
  refine ⟨rfl, rfl, rfl, fun b => rfl, ?_⟩
  have hres := reserveH_noop a fresh src.length
    (⟨s.m_begin, [], s.cap⟩ : HeapVec α) (by simpa using h)
  simp [copyAssignH, destroyMeH, copyElementsH, hres, List.take_length]

/-- C10 (witness): destination with begin pointer 42, capacity 6, four
elements; source [7, 8] fits the stale capacity. -/
theorem C10_witness :
    (copyAssignH (Alloc.plain Policy.heapOk) 99 true false false
        ([7, 8] : List Nat) ⟨42, [1, 2, 3, 4], 6⟩).1.st.m_begin = 42
    ∧ (copyAssignH (Alloc.plain Policy.heapOk) 99 true false false
        ([7, 8] : List Nat) ⟨42, [1, 2, 3, 4], 6⟩).1.st.cap = 6
    ∧ (copyAssignH (Alloc.plain Policy.heapOk) 99 true false false
        ([7, 8] : List Nat) ⟨42, [1, 2, 3, 4], 6⟩).1.heapAllocs = 0
    ∧ (copyAssignH (Alloc.plain Policy.heapOk) 99 true false false
        ([7, 8] : List Nat) ⟨42, [1, 2, 3, 4], 6⟩).1.st.elems = [7, 8] :=
  (C10_destroy_me_frame Nat (Alloc.plain Policy.heapOk) 99 [7, 8]
      ⟨42, [1, 2, 3, 4], 6⟩ (by norm_num)).2.2.2.2

/-- C6: pushBack appends the new value after the existing elements (size
grows by one, the value lands at the old size, prior values are untouched);
and the concrete 1..5 scenario of test_vector.cpp lines 19-36 on an
sbo_vector<int, 3>: the first three pushes perform no heap allocation and end
at capacity 3, the fourth performs a heap allocation reaching capacity ≥ 4,
and the final contents are [1, 2, 3, 4, 5] in order. -/
theorem C6_push_back (α : Type) (a : Alloc) (fresh : Nat) (v : α)
    (s : HeapVec α) (hca : a.can_allocate = true) :
    ((pushBackH a fresh v s).fail = none
     ∧ (pushBackH a fresh v s).st.elems = s.elems ++ [v])
    ∧ (sboP1.heapAllocs = 0 ∧ sboP1.st.cap = 3
       ∧ sboP2.heapAllocs = 0 ∧ sboP2.st.cap = 3
       ∧ sboP3.heapAllocs = 0 ∧ sboP3.st.cap = 3
       ∧ sboP4.heapAllocs = 1 ∧ 4 ≤ sboP4.st.cap
       ∧ sboP5.st.elems = [1, 2, 3, 4, 5]) :=
  ⟨pushBackH_heap a fresh v s hca, by decide⟩

/-- C6 (witness): pushing 7 onto an sbo_vector<int, 3> holding [1, 2]. -/
theorem C6_witness :
    (pushBackH sboDemoA 999 (7 : Nat) ⟨10, [1, 2], 3⟩).fail = none
    ∧ (pushBackH sboDemoA 999 (7 : Nat) ⟨10, [1, 2], 3⟩).st.elems
        = [1, 2] ++ [7] :=
  (C6_push_back Nat sboDemoA 999 7 ⟨10, [1, 2], 3⟩ rfl).1

/-- C8 (counterexample): the claim demands new capacity ≥ max(neededSize,
1.5 × previousSize) with real 1.5.  Pushing a fourth element onto an
sbo_vector<int, 3> holding [1, 2, 3] (capacity 3) reallocates to capacity
4 = max(4, 3 * 3 / 2) under the integer arithmetic of
experimental_vector.h line 217, but 4 < max(4, 4.5). -/
theorem C8_counterexample :
    (pushBackH sboDemoA 77 (4 : Nat) sboFull3).st.cap = 4
    ∧ ¬ ((((pushBackH sboDemoA 77 (4 : Nat) sboFull3).st.cap : ℚ))
          ≥ max ((sboFull3.elems.length : ℚ) + 1)
              ((3 / 2 : ℚ) * (sboFull3.elems.length : ℚ))) := by
  have h : (pushBackH sboDemoA 77 (4 : Nat) sboFull3).st.cap = 4 := by decide
  have hl : sboFull3.elems.length = 3 := by decide
  refine ⟨h, ?_⟩
  rw [h, hl]
  rw [ge_iff_le, max_le_iff]
  norm_num

/-- C8 (amended): each reallocation triggered by pushBack growth reaches a
capacity of at least max(neededSize, previousSize * 3 / 2) where the growth
term uses the integer (floor) arithmetic of the source. -/
theorem C8_growth_factor (α : Type) (a : Alloc) (fresh : Nat) (v : α)
    (s : HeapVec α) (hca : a.can_allocate = true)
    (_hgrow : s.cap < s.elems.length + 1) :
    max (s.elems.length + 1) (s.elems.length * 3 / 2)
      ≤ (pushBackH a fresh v s).st.cap := by
  unfold pushBackH bumpH
  have hlt : ¬ (s.elems.length + 1 ≤ s.elems.length) := by omega
  rw [if_neg hlt]
  obtain ⟨h1, _, h3, _⟩ := reserveH_heap a fresh
    (max (s.elems.length + 1) (s.elems.length * 3 / 2)) s hca
  rcases hr : reserveH a fresh
      (max (s.elems.length + 1) (s.elems.length * 3 / 2)) s with ⟨s', fl, hh, ff⟩
  rw [hr] at h1 h3
  simp at h1
  subst h1
  simpa using h3

/-- C8 (witness): the push that grows the sbo_vector<int, 3> from [1, 2, 3]
reaches capacity ≥ max(4, 3 * 3 / 2) = 4. -/
theorem C8_witness :
    max (sboFull3.elems.length + 1) (sboFull3.elems.length * 3 / 2)
      ≤ (pushBackH sboDemoA 77 (4 : Nat) sboFull3).st.cap :=
  C8_growth_factor Nat sboDemoA 77 4 sboFull3 rfl (by decide)

/-- C4: after a successfully completing cross-allocator move construction or
move assignment — whichever path was taken, over every combination of
heap-capable and static (InlineSizeStorage) source and destination — the
source is left with size 0; and whenever the backing identities differ
(sb = false for the heap-to-heap operations; automatic whenever the generic
path is the only one) the move or copy produces a destination holding exactly
the source's original values in order, with the element operations of the
prefix-overlap rule: assignments over the common prefix, constructions for
the missing tail when growing, destructions of the surplus when shrinking.
For static sources the well-formedness facts of a reachable state are assumed
(buffer length equals the stored size, which fits the inline capacity). -/
theorem C4_move_copy_correctness (α : Type) [Inhabited α] (aDst aSrc : Alloc)
    (sb pm ae aeq : Bool) (fresh : Nat) (src dst : HeapVec α)
    (SZ g SZs SZd gs : Nat) (pol pols pold : Policy)
    (srcS dstS : StaticVec α) :
    ((moveConstructH aDst aSrc sb fresh src).fail = none →
        (moveConstructH aDst aSrc sb fresh src).srcAfter.elems.length = 0)
    ∧ ((moveAssignH aDst aSrc sb pm ae aeq fresh src dst).fail = none →
        (moveAssignH aDst aSrc sb pm ae aeq fresh src dst).srcAfter.elems.length
          = 0)
    ∧ ((moveConstructStaticFromHeap SZ pol g src).2.1 = none →
        (moveConstructStaticFromHeap SZ pol g src).1.2.elems.length = 0)
    ∧ (sb = false →
        (moveConstructH aDst aSrc sb fresh src).fail = none →
        (moveConstructH aDst aSrc sb fresh src).dst.elems = src.elems
        ∧ (moveConstructH aDst aSrc sb fresh src).xfer
            = transferCounts 0 src.elems.length)
    ∧ (sb = false →
        (moveAssignH aDst aSrc sb pm ae aeq fresh src dst).fail = none →
        (moveAssignH aDst aSrc sb pm ae aeq fresh src dst).dst.elems
            = src.elems
        ∧ (moveAssignH aDst aSrc sb pm ae aeq fresh src dst).xfer
            = transferCounts dst.elems.length src.elems.length)
    ∧ ((moveConstructStaticFromHeap SZ pol g src).2.1 = none →
        (moveConstructStaticFromHeap SZ pol g src).1.1.buf = src.elems
        ∧ (moveConstructStaticFromHeap SZ pol g src).2.2
            = transferCounts g src.elems.length)
    ∧ ((copyConstructH aDst fresh src.elems).1.fail = none →
        (copyConstructH aDst fresh src.elems).1.st.elems = src.elems
        ∧ (copyConstructH aDst fresh src.elems).2
            = transferCounts 0 src.elems.length)
    ∧ (srcS.buf.length = srcS.m_size → SZs < 2 ^ 64 → srcS.m_size ≤ SZs →
        (moveConstructHFromStatic aDst SZs pols fresh srcS).2.1 = none →
        (moveConstructHFromStatic aDst SZs pols fresh srcS).1.2.m_size = 0
        ∧ (moveConstructHFromStatic aDst SZs pols fresh srcS).1.1.elems
            = srcS.buf
        ∧ (moveConstructHFromStatic aDst SZs pols fresh srcS).2.2
            = transferCounts 0 srcS.m_size)
    ∧ (srcS.buf.length = srcS.m_size → SZs < 2 ^ 64 → srcS.m_size ≤ SZs →
        (moveAssignHFromStatic aDst SZs pols fresh srcS dst).2.1 = none →
        (moveAssignHFromStatic aDst SZs pols fresh srcS dst).1.2.m_size = 0
        ∧ (moveAssignHFromStatic aDst SZs pols fresh srcS dst).1.1.elems
            = srcS.buf
        ∧ (moveAssignHFromStatic aDst SZs pols fresh srcS dst).2.2
            = transferCounts dst.elems.length srcS.m_size)
    ∧ ((moveAssignStaticFromHeap SZd pold src dstS).2.1 = none →
        (moveAssignStaticFromHeap SZd pold src dstS).1.2.elems.length = 0
        ∧ (moveAssignStaticFromHeap SZd pold src dstS).1.1.buf = src.elems
        ∧ (moveAssignStaticFromHeap SZd pold src dstS).2.2
            = transferCounts dstS.m_size src.elems.length)
    ∧ (srcS.buf.length = srcS.m_size → SZs < 2 ^ 64 → srcS.m_size ≤ SZs →
        (moveConstructStaticFromStatic SZd pold SZs pols gs srcS).2.1 = none →
        (moveConstructStaticFromStatic SZd pold SZs pols gs srcS).1.2.m_size
            = 0
        ∧ (moveConstructStaticFromStatic SZd pold SZs pols gs srcS).1.1.buf
            = srcS.buf
        ∧ (moveConstructStaticFromStatic SZd pold SZs pols gs srcS).2.2
            = transferCounts gs srcS.m_size)
    ∧ (srcS.buf.length = srcS.m_size → SZs < 2 ^ 64 → srcS.m_size ≤ SZs →
        (moveAssignStaticFromStatic SZd pold SZs pols srcS dstS).2.1 = none →
        (moveAssignStaticFromStatic SZd pold SZs pols srcS dstS).1.2.m_size
            = 0
        ∧ (moveAssignStaticFromStatic SZd pold SZs pols srcS dstS).1.1.buf
            = srcS.buf
        ∧ (moveAssignStaticFromStatic SZd pold SZs pols srcS dstS).2.2
            = transferCounts dstS.m_size srcS.m_size)
    ∧ ((copyAssignH aDst fresh false ae aeq src.elems dst).1.fail = none →
        (copyAssignH aDst fresh false ae aeq src.elems dst).1.st.elems
            = src.elems
        ∧ (copyAssignH aDst fresh false ae aeq src.elems dst).2
            = transferCounts dst.elems.length src.elems.length)
    ∧ ((copyAssignStatic SZd pold src.elems dstS).1.2 = none →
        (copyAssignStatic SZd pold src.elems dstS).1.1.buf = src.elems
        ∧ (copyAssignStatic SZd pold src.elems dstS).2
            = transferCounts dstS.m_size src.elems.length) := by
  refine ⟨?_, ?_, ?_, ?_, ?_, ?_, ?_, ?_, ?_, ?_, ?_, ?_, ?_, ?_⟩
  · intro hf
    rw [(moveConstructH_spec α aDst aSrc sb fresh src hf).1]
    rfl
  · intro hf
    rw [(moveAssignH_spec α aDst aSrc sb pm ae aeq fresh src dst hf).1]
    rfl
  · intro hf
    rw [(moveConstructStaticFromHeap_spec α SZ pol g src hf).2.1]
    rfl
  · intro hsb hf
    refine (moveConstructH_spec α aDst aSrc sb fresh src hf).2 ?_
    rw [moveConstructH_fastPath α aDst aSrc sb fresh src, hsb]
    rfl
  · intro hsb hf
    refine (moveAssignH_spec α aDst aSrc sb pm ae aeq fresh src dst hf).2 ?_
    rw [moveAssignH_fastPath α aDst aSrc sb pm ae aeq fresh src dst, hsb]
    rfl
  · intro hf
    obtain ⟨h1, _, h3⟩ := moveConstructStaticFromHeap_spec α SZ pol g src hf
    exact ⟨h1, h3⟩
  · intro hf
    obtain ⟨h1, h2⟩ := copyElementsH_spec aDst fresh src.elems
      src.elems.length HeapVec.null hf
    refine ⟨?_, ?_⟩
    · rw [show (copyConstructH aDst fresh src.elems).1.st.elems
          = (copyElementsH aDst fresh src.elems src.elems.length
              HeapVec.null).1.st.elems from rfl, h1, List.take_length]
    · rw [show (copyConstructH aDst fresh src.elems).2
          = (copyElementsH aDst fresh src.elems src.elems.length
              HeapVec.null).2 from rfl, h2]
      rfl
  · intro hwf hSZs hs hf
    obtain ⟨h1, h2, h3⟩ :=
      moveConstructHFromStatic_spec α aDst SZs pols fresh srcS hf
    refine ⟨?_, ?_, h3⟩
    · rw [h2]
      exact clearStatic_m_size α SZs pols srcS hSZs hs
    · rw [h1, ← hwf, List.take_length]
  · intro hwf hSZs hs hf
    obtain ⟨h1, h2, h3⟩ :=
      moveAssignHFromStatic_spec α aDst SZs pols fresh srcS dst hf
    refine ⟨?_, ?_, h3⟩
    · rw [h2]
      exact clearStatic_m_size α SZs pols srcS hSZs hs
    · rw [h1, ← hwf, List.take_length]
  · intro hf
    obtain ⟨h1, h2, h3⟩ := moveAssignStaticFromHeap_spec α SZd pold src dstS hf
    refine ⟨?_, h1, h3⟩
    rw [h2]
    rfl
  · intro hwf hSZs hs hf
    obtain ⟨h1, h2, h3⟩ :=
      moveConstructStaticFromStatic_spec α SZd pold SZs pols gs srcS hf
    refine ⟨?_, ?_, h3⟩
    · rw [h2]
      exact clearStatic_m_size α SZs pols srcS hSZs hs
    · rw [h1, ← hwf, List.take_length]
  · intro hwf hSZs hs hf
    obtain ⟨h1, h2, h3⟩ :=
      moveAssignStaticFromStatic_spec α SZd pold SZs pols srcS dstS hf
    refine ⟨?_, ?_, h3⟩
    · rw [h2]
      exact clearStatic_m_size α SZs pols srcS hSZs hs
    · rw [h1, ← hwf, List.take_length]
  · intro hf
    have hf' : (copyElementsH aDst fresh src.elems
        src.elems.length dst).1.fail = none := hf
    obtain ⟨h1, h2⟩ := copyElementsH_spec aDst fresh src.elems
      src.elems.length dst hf'
    refine ⟨?_, ?_⟩
    · rw [show (copyAssignH aDst fresh false ae aeq src.elems dst).1.st.elems
          = (copyElementsH aDst fresh src.elems src.elems.length
              dst).1.st.elems from rfl, h1, List.take_length]
    · rw [show (copyAssignH aDst fresh false ae aeq src.elems dst).2
          = (copyElementsH aDst fresh src.elems src.elems.length
              dst).2 from rfl, h2]
  · intro hf
    have hf' : (copyElementsStatic SZd pold src.elems
        src.elems.length dstS).1.2 = none := hf
    obtain ⟨h1, h2⟩ := copyElementsStatic_spec α SZd pold src.elems
      src.elems.length dstS hf'
    refine ⟨?_, ?_⟩
    · rw [show (copyAssignStatic SZd pold src.elems dstS).1.1
          = (copyElementsStatic SZd pold src.elems src.elems.length
              dstS).1.1 from rfl, h1]
      simp
    · rw [show (copyAssignStatic SZd pold src.elems dstS).2
          = (copyElementsStatic SZd pold src.elems src.elems.length
              dstS).2 from rfl, h2]

/-- C4 (witness): moving a heap vector holding [1, 2, 3] into a vector over a
different backing allocator (sb = false): the destination receives [1, 2, 3]
with 3 constructions and no assignment or destruction, and the source ends
empty; likewise into a static destination of capacity 5 whose uninitialised
size field happens to read 0; and a static_vector<int, 10> holding
[1, 2, 3, 4, 5] move-assigned into a heap vector (test_vector.cpp line 47)
delivers [1, 2, 3, 4, 5] and leaves the static source at size 0. -/
theorem C4_witness :
    ((moveConstructH (Alloc.plain Policy.heapOk)
        (Alloc.buffered 3 60 Policy.heapOk) false 99
        (⟨60, [1, 2, 3], 3⟩ : HeapVec Nat)).dst.elems = [1, 2, 3]
     ∧ (moveConstructH (Alloc.plain Policy.heapOk)
        (Alloc.buffered 3 60 Policy.heapOk) false 99
        (⟨60, [1, 2, 3], 3⟩ : HeapVec Nat)).xfer = transferCounts 0 3)
    ∧ (moveConstructH (Alloc.plain Policy.heapOk)
        (Alloc.buffered 3 60 Policy.heapOk) false 99
        (⟨60, [1, 2, 3], 3⟩ : HeapVec Nat)).srcAfter.elems.length = 0
    ∧ (moveConstructStaticFromHeap 5 Policy.raising 0
        (⟨60, [1, 2, 3], 3⟩ : HeapVec Nat)).1.1.buf = [1, 2, 3]
    ∧ (moveAssignHFromStatic (Alloc.plain Policy.heapOk) 10 Policy.unchecked
        99 (⟨5, [1, 2, 3, 4, 5]⟩ : StaticVec Nat) HeapVec.null).1.1.elems
          = [1, 2, 3, 4, 5]
    ∧ (moveAssignHFromStatic (Alloc.plain Policy.heapOk) 10 Policy.unchecked
        99 (⟨5, [1, 2, 3, 4, 5]⟩ : StaticVec Nat) HeapVec.null).1.2.m_size
          = 0 := by
  have h := C4_move_copy_correctness Nat (Alloc.plain Policy.heapOk)
    (Alloc.buffered 3 60 Policy.heapOk) false false false false 99
    ⟨60, [1, 2, 3], 3⟩ HeapVec.null 5 0 10 4 0 Policy.raising
    Policy.unchecked Policy.raising ⟨5, [1, 2, 3, 4, 5]⟩ ⟨0, []⟩
  have h9 := h.2.2.2.2.2.2.2.2.1 rfl (by norm_num) (by norm_num) (by decide)
  exact ⟨h.2.2.2.1 rfl (by decide), h.1 (by decide),
    (h.2.2.2.2.2.1 (by decide)).1, h9.2.1, h9.1⟩

/-- C7 (counterexample): under the unchecked policy the stored-size invariant
is NOT preserved: a full static vector of inline capacity 3 satisfies the
invariant, yet one more pushBack silently stores size 4 > 3 (the allocation
"failure" returns nullptr, is discarded, and push_back proceeds to
set_size(size()+1)). -/
theorem C7_counterexample :
    (⟨3, [1, 2, 3]⟩ : StaticVec Nat).m_size ≤ 3
    ∧ ¬ ((pushBackStatic 3 Policy.unchecked (9 : Nat)
          ⟨3, [1, 2, 3]⟩).1.m_size ≤ 3) := by
  constructor <;> decide

/-- C7 (amended): for a fixed-capacity (canAllocate == false) container, every
public operation (pushBack, popBack under its non-empty precondition, reserve,
resize, clear, and the element-transfer core of assignment) preserves the
invariant stored size ≤ bufferCapacity — under the raising and the
terminating sentinel policies (the unchecked policy can violate it on
overflow). -/
theorem C7_static_size_invariant (α : Type) [Inhabited α] (SZ : Nat)
    (pol : Policy) (s : StaticVec α)
    (hpol : pol = Policy.raising ∨ pol = Policy.terminating)
    (hSZ : SZ < 2 ^ 64) (hs : s.m_size ≤ SZ) :
    (∀ v : α, (pushBackStatic SZ pol v s).1.m_size ≤ SZ)
    ∧ (0 < s.m_size → (popBackStatic SZ s).m_size ≤ SZ)
    ∧ (∀ n : Nat, (reserveStaticOp SZ pol n s).1.m_size ≤ SZ)
    ∧ (∀ n : Nat, (resizeStatic SZ pol n s).1.m_size ≤ SZ)
    ∧ (clearStatic SZ pol s).1.m_size ≤ SZ
    ∧ (∀ (src : List α) (count : Nat),
        (takeElementsStatic SZ pol src count s).1.1.m_size ≤ SZ)
    ∧ (∀ (src : List α) (count : Nat),
        (copyElementsStatic SZ pol src count s).1.1.m_size ≤ SZ) := by
  have hresize : ∀ n : Nat, (resizeStatic SZ pol n s).1.m_size ≤ SZ := by
    intro n
    unfold resizeStatic
    split
    · rcases hb : bumpStatic SZ pol n s with _ | f
      · exact growLoopStatic_size_le SZ pol hpol hSZ _ s hs
      · exact hs
    · exact popLoopStatic_size_le SZ hSZ _ s hs
  have htake : ∀ (src : List α) (count : Nat),
      (takeElementsStatic SZ pol src count s).1.1.m_size ≤ SZ := by
    intro src count
    unfold takeElementsStatic
    rcases hr : reserveStatic SZ pol count with _ | f
    · have hc : count ≤ SZ := (reserveStatic_none_rt SZ pol count hpol).mp hr
      simp [setSizeStatic_eq SZ count hSZ hc, hc]
    · simpa using hs
  have hcopy : ∀ (src : List α) (count : Nat),
      (copyElementsStatic SZ pol src count s).1.1.m_size ≤ SZ := by
    intro src count
    unfold copyElementsStatic
    rcases hr : reserveStatic SZ pol count with _ | f
    · have hc : count ≤ SZ := (reserveStatic_none_rt SZ pol count hpol).mp hr
      simp [setSizeStatic_eq SZ count hSZ hc, hc]
    · simpa using hs
  refine ⟨?_, ?_, ?_, hresize, hresize 0, htake, hcopy⟩
  · intro v
    exact pushBackStatic_size_le SZ pol v s hpol hSZ hs
  · intro _
    exact popBackStatic_size_le SZ s hSZ hs
  · intro n
    exact hs

/-- C7 (witness): a raising static vector of capacity 3 holding [5, 6]:
push, resize(9) and a 1-element assignment all keep the size within 3. -/
theorem C7_witness :
    (pushBackStatic 3 Policy.raising (7 : Nat) ⟨2, [5, 6]⟩).1.m_size ≤ 3
    ∧ (resizeStatic 3 Policy.raising 9 (⟨2, [5, 6]⟩ : StaticVec Nat)).1.m_size ≤ 3
    ∧ (takeElementsStatic 3 Policy.raising ([7] : List Nat) 1
        ⟨2, [5, 6]⟩).1.1.m_size ≤ 3 := by
  have h := C7_static_size_invariant Nat 3 Policy.raising ⟨2, [5, 6]⟩
    (Or.inl rfl) (by norm_num) (by norm_num)
  exact ⟨h.1 7, h.2.2.2.1 9, h.2.2.2.2.2.1 [7] 1⟩

end P2667
